import Mathlib

/-!
Verification of the AutoCommit application core (src/src-tauri/main.rs).

The development shallowly embeds the pieces of the program the claims are
about: the diff-size truncation and message sanitization of `run_commit`,
the `run_commit` pipeline itself (external interactions are supplied by an
environment record, and the pipeline returns its outcome together with the
list of side effects it performed), the scheduler commands
`start_auto_commit` / `stop_auto_commit` with their spawned loop tasks, and
the lock-scope event traces of the configuration commands.
-/

set_option maxRecDepth 8000

namespace AutoCommit

/-- One byte of a UTF-8 encoded string (the strings produced by
`String::from_utf8_lossy` in `run_commit`). -/
abbrev Byte := Nat

/-- A UTF-8 continuation byte (bit pattern 10xxxxxx), i.e. a byte that is
not the first byte of an encoded character. -/
def isContinuationByte (b : Byte) : Bool := 128 ≤ b && b < 192

/-- Rust `str::is_char_boundary` at index `i`, for the in-range indices at
which `run_commit` uses it (`i` strictly below the length): true iff the
byte at `i` starts a new character. Out-of-range indices answer true, which
is only ever applied here with `i = 10000` and a length above 10000. -/
def isCharBoundary (s : List Byte) (i : Nat) : Bool :=
  match s[i]? with
  | none => true
  | some b => !(isContinuationByte b)

/-- The separator the `format!` call in `run_commit` puts between the stat
section and the diff body: two newline bytes. -/
def statSep : List Byte := [10, 10]

/-- The diff-size limiting step of `run_commit` (main.rs lines 156-161):
when the detailed diff body exceeds 10000 bytes, the body is byte-sliced at
index 10000. Rust slicing panics when that index is not a character
boundary; the panic is modelled as `none`. -/
def truncateDiffText (stat body : List Byte) : Option (List Byte) :=
  if body.length > 10000 then
    if isCharBoundary body 10000 then some (stat ++ statSep ++ body.take 10000)
    else none
  else some (stat ++ statSep ++ body)

/-- The Unicode White_Space property, the predicate behind Rust
`char::is_whitespace`. -/
def isRustWhitespace (c : Char) : Bool :=
  let n := c.toNat
  (9 ≤ n && n ≤ 13) || n == 32 || n == 133 || n == 160 || n == 5760 ||
  (8192 ≤ n && n ≤ 8202) || n == 8232 || n == 8233 || n == 8239 ||
  n == 8287 || n == 12288

/-- Drop the longest suffix all of whose characters satisfy `p`. -/
def dropRightWhile (p : Char → Bool) (l : List Char) : List Char :=
  (l.reverse.dropWhile p).reverse

/-- Rust `str::trim` on a list of characters: drop whitespace from both
ends. -/
def trimList (l : List Char) : List Char :=
  dropRightWhile isRustWhitespace (l.dropWhile isRustWhitespace)

/-- Rust `str::trim_matches` with a single-character pattern: strip every
leading and every trailing occurrence of `c`. -/
def trimMatchesChar (c : Char) (l : List Char) : List Char :=
  dropRightWhile (fun x => x == c) (l.dropWhile (fun x => x == c))

/-- The straight single-quote character (code point 39). -/
def singleQuote : Char := Char.ofNat 39

/-- The message sanitization of `run_commit` (main.rs lines 210 and
214-218): the extracted candidate text is trimmed, then every leading and
trailing straight double quote is stripped, then every leading and trailing
straight single quote, then the result is trimmed again. -/
def sanitize (raw : List Char) : List Char :=
  trimList (trimMatchesChar singleQuote (trimMatchesChar '"' (trimList raw)))

/-- The core of a message neither starts nor ends with a straight quote or
a whitespace character (and is nonempty). -/
def cleanCore (t : List Char) : Bool :=
  match t.head?, t.getLast? with
  | some a, some b =>
      !(a == '"') && !(a == singleQuote) && !(isRustWhitespace a) &&
      !(b == '"') && !(b == singleQuote) && !(isRustWhitespace b)
  | _, _ => false

/-- The no-op sentinel `run_commit` returns when the repository has no
pending changes (main.rs line 117). -/
def noChangesMsg : List Char := "No changes to commit".data

/-- The error classes of `run_commit`, one per `map_err`/early-return site
of main.rs lines 113-234. `keyMissing` is the ConfigError for an empty
credential (line 126); `apiErr` carries the non-success response body
(line 198). -/
inductive RunErr
  | openErr
  | statusesErr
  | keyMissing
  | addSpawnErr
  | diffStatSpawnErr
  | diffFullSpawnErr
  | networkErr
  | apiErr (body : List Char)
  | parseErr
  | noCandidate
  | commitSpawnErr
  | pushSpawnErr
deriving DecidableEq

/-- The observable side effects of one `run_commit` invocation, in program
order. Each git subprocess effect records the exit code the process
finished with; the code of `run_commit` receives but never inspects these
exit codes. -/
inductive Effect
  | stage (exitCode : Nat)
  | remoteCall
  | commit (msg : List Char) (exitCode : Nat)
  | push (exitCode : Nat)
deriving DecidableEq

/-- The result of one `run_commit` invocation: the returned `Ok` string,
the returned `Err`, or a Rust panic (only the byte-slice of the diff body
can panic). -/
inductive Outcome
  | ok (msg : List Char)
  | err (e : RunErr)
  | panic
deriving DecidableEq

/-- The environment of one `run_commit` invocation: the result of every
external interaction (repository, subprocesses, network, response
decoding), listed in the order the source performs them. `candidateText`
is `candidates[0].content.parts[0].text` of the decoded response, `none`
when absent. -/
structure Env where
  openOk : Bool
  statusesOk : Bool
  statusesEmpty : Bool
  addSpawnOk : Bool
  addExit : Nat
  diffStatSpawnOk : Bool
  diffStatOut : List Byte
  diffFullSpawnOk : Bool
  diffFullOut : List Byte
  sendOk : Bool
  httpSuccess : Bool
  errBody : List Char
  parseOk : Bool
  candidateText : Option (List Char)
  commitSpawnOk : Bool
  commitExit : Nat
  pushSpawnOk : Bool
  pushExit : Nat
deriving DecidableEq

/-- Shallow embedding of `run_commit` (main.rs lines 111-237) over an
environment and the credential snapshot taken from the configuration lock.
The second component is the list of side effects performed before
returning. Each branch mirrors one early return of the source, in source
order; the `status()` calls of `git commit` and `git push` only fail when
the process cannot be spawned, exactly as `map_err` in the source only
covers the io error of spawning. -/
def run_commit (env : Env) (apiKey : List Char) : Outcome × List Effect :=
  if !env.openOk then (.err .openErr, [])
  else if !env.statusesOk then (.err .statusesErr, [])
  else if env.statusesEmpty then (.ok noChangesMsg, [])
  else if apiKey.isEmpty then (.err .keyMissing, [])
  else if !env.addSpawnOk then (.err .addSpawnErr, [])
  else
    let tr0 : List Effect := [.stage env.addExit]
    if !env.diffStatSpawnOk then (.err .diffStatSpawnErr, tr0)
    else if !env.diffFullSpawnOk then (.err .diffFullSpawnErr, tr0)
    else
      match truncateDiffText env.diffStatOut env.diffFullOut with
      | none => (.panic, tr0)
      | some _ =>
        let tr1 := tr0 ++ [.remoteCall]
        if !env.sendOk then (.err .networkErr, tr1)
        else if !env.httpSuccess then (.err (.apiErr env.errBody), tr1)
        else if !env.parseOk then (.err .parseErr, tr1)
        else
          match env.candidateText with
          | none => (.err .noCandidate, tr1)
          | some raw =>
            let clean := sanitize raw
            if !env.commitSpawnOk then (.err .commitSpawnErr, tr1)
            else
              let tr2 := tr1 ++ [.commit clean env.commitExit]
              if !env.pushSpawnOk then (.err .pushSpawnErr, tr2)
              else (.ok clean, tr2 ++ [.push env.pushExit])

/-- The configuration record (struct AppConfig, main.rs lines 12-19). -/
structure AppConfig where
  repo_path : List Char
  auto_commit_enabled : Bool
  interval_minutes : Nat
  auto_start : Bool
  gemini_api_key : List Char
deriving DecidableEq

/-- The Default impl for AppConfig (main.rs lines 27-37). -/
def defaultConfig : AppConfig := ⟨[], false, 30, false, []⟩

/-- One spawned scheduler loop task, holding the interval/path snapshot its
closure captured at start time (main.rs lines 299-301 and 313-314). -/
structure LoopTask where
  interval_minutes : Nat
  path : List Char
deriving DecidableEq

/-- The shared application state (AppState) together with the loop tasks
spawned so far and not yet exited. -/
structure Sys where
  config : AppConfig
  timerRunning : Bool
  loops : List LoopTask
deriving DecidableEq

/-- The error string `start_auto_commit` returns when the flag is already
set (main.rs line 306). -/
def timerErrMsg : List Char := "Timer is already running".data

/-- Shallow embedding of `start_auto_commit` (main.rs lines 294-339): the
interval/path snapshot is copied out under the config lock, then the timer
flag is checked and set in one critical section of the timer lock; on
success one loop task capturing the snapshot is spawned. -/
def start_auto_commit (s : Sys) : Except (List Char) Unit × Sys :=
  let snapInterval := s.config.interval_minutes
  let snapPath := s.config.repo_path
  if s.timerRunning then (.error timerErrMsg, s)
  else
    (.ok (), { s with timerRunning := true,
                      loops := s.loops ++ [⟨snapInterval, snapPath⟩] })

/-- Shallow embedding of `stop_auto_commit` (main.rs lines 341-346): clear
the flag unconditionally and succeed. -/
def stop_auto_commit (s : Sys) : Except (List Char) Unit × Sys :=
  (.ok (), { s with timerRunning := false })

/-- The period of the tokio interval timer a loop task constructs
(main.rs line 314): `Duration::from_secs(interval_minutes * 60)`.
`tokio::time::interval` panics when the period is zero; the panic (which
aborts the spawned task) is modelled as `none`. -/
def taskTimerPeriod (t : LoopTask) : Option Nat :=
  if t.interval_minutes * 60 = 0 then none else some (t.interval_minutes * 60)

/-- One timer tick of the loop task at index `i` (main.rs lines 316-335).
A task whose timer construction panicked never ticks. Otherwise the task
re-reads the shared flag under the timer lock: if the flag is cleared the
loop breaks (the task is removed), else the task invokes `run_commit` with
its captured snapshot path, returned as the second component. -/
def tickAt (s : Sys) (i : Nat) : Sys × Option (List Char) :=
  match s.loops[i]? with
  | none => (s, none)
  | some t =>
    match taskTimerPeriod t with
    | none => (s, none)
    | some _ =>
      if s.timerRunning then (s, some t.path)
      else ({ s with loops := s.loops.eraseIdx i }, none)

/-- The in-memory half of `save_config` (main.rs lines 244-245): replace
the shared configuration wholesale. -/
def save_config_mem (c : AppConfig) (s : Sys) : Sys := { s with config := c }

/-- The notifications the scheduler loop can emit after one run
(main.rs lines 325-334). -/
inductive Notification
  | commitStatus (m : List Char)
  | commitError (e : RunErr)
deriving DecidableEq

/-- The notification decision of the scheduler loop (main.rs lines
325-334): a successful run emits commit-status unless the returned message
equals the no-op sentinel string, a failed run emits commit-error, and a
panicking run aborts the task without emitting anything. -/
def loopNotification (r : Outcome) : Option Notification :=
  match r with
  | .ok m => if m = noChangesMsg then none else some (.commitStatus m)
  | .err e => some (.commitError e)
  | .panic => none

/-- Events of a configuration command execution, in program order, used to
state where the configuration mutex is acquired and released. -/
inductive CfgEvent
  | lockAcquire
  | swapConfig
  | cloneConfig
  | createDir
  | serializeCfg
  | fsWrite
  | lockRelease
deriving DecidableEq

/-- Success-path event order of `save_config` (main.rs lines 239-256). The
MutexGuard taken at line 244 is never dropped early, so it lives until the
function returns: the config-directory creation, the serialization and the
durable file write all happen with the configuration lock held. -/
def save_config_events : List CfgEvent :=
  [.lockAcquire, .swapConfig, .createDir, .serializeCfg, .fsWrite, .lockRelease]

/-- Success-path event order of `get_config` (main.rs lines 258-262): lock,
clone the configuration, return (the guard is dropped at return, with no
blocking operation in between). -/
def get_config_events : List CfgEvent :=
  [.lockAcquire, .cloneConfig, .lockRelease]

/-- Index of the first occurrence of `e` (length of the list when absent). -/
def firstIdx (e : CfgEvent) : List CfgEvent → Nat
  | [] => 0
  | a :: l => if a = e then 0 else firstIdx e l + 1

/-- `e` happens while the lock is held: strictly after the acquire event
and strictly before the release event. -/
def heldDuring (tr : List CfgEvent) (e : CfgEvent) : Bool :=
  decide (firstIdx .lockAcquire tr < firstIdx e tr) &&
  decide (firstIdx e tr < firstIdx .lockRelease tr)

/-- Concrete environments used by the claim theorems. `c1Body` is a diff
body of 10001 bytes: 9999 ASCII bytes then the two-byte character U+00E9
(bytes 195, 169), so byte index 10000 falls inside a character. -/
def c1Body : List Byte := List.replicate 9999 97 ++ [195, 169]

/-- Environment of a run whose staged diff body is `c1Body`: every external
interaction succeeds. -/
def c1Env : Env :=
  { openOk := true, statusesOk := true, statusesEmpty := false,
    addSpawnOk := true, addExit := 0,
    diffStatSpawnOk := true, diffStatOut := [],
    diffFullSpawnOk := true, diffFullOut := c1Body,
    sendOk := true, httpSuccess := true, errBody := [],
    parseOk := true, candidateText := some ['x'],
    commitSpawnOk := true, commitExit := 0,
    pushSpawnOk := true, pushExit := 0 }

/-- Environment of a run with no pending changes. -/
def c3Env : Env :=
  { openOk := true, statusesOk := true, statusesEmpty := true,
    addSpawnOk := true, addExit := 0,
    diffStatSpawnOk := true, diffStatOut := [],
    diffFullSpawnOk := true, diffFullOut := [],
    sendOk := true, httpSuccess := true, errBody := [],
    parseOk := true, candidateText := none,
    commitSpawnOk := true, commitExit := 0,
    pushSpawnOk := true, pushExit := 0 }

/-- Environment of a run with pending changes (used with an empty
credential). -/
def c4Env : Env :=
  { openOk := true, statusesOk := true, statusesEmpty := false,
    addSpawnOk := true, addExit := 0,
    diffStatSpawnOk := true, diffStatOut := [],
    diffFullSpawnOk := true, diffFullOut := [],
    sendOk := true, httpSuccess := true, errBody := [],
    parseOk := true, candidateText := none,
    commitSpawnOk := true, commitExit := 0,
    pushSpawnOk := true, pushExit := 0 }

/-- The commit message of the C2 counterexample run. -/
def featMsg : List Char := "feat: x".data

/-- Environment of a run in which every spawn succeeds but both
`git commit` and `git push` exit with code 1. -/
def c2Env : Env :=
  { openOk := true, statusesOk := true, statusesEmpty := false,
    addSpawnOk := true, addExit := 0,
    diffStatSpawnOk := true, diffStatOut := [97],
    diffFullSpawnOk := true, diffFullOut := [97],
    sendOk := true, httpSuccess := true, errBody := [],
    parseOk := true, candidateText := some featMsg,
    commitSpawnOk := true, commitExit := 1,
    pushSpawnOk := true, pushExit := 1 }

/-- True iff the outcome is an error return. -/
def isErrOutcome : Outcome → Bool
  | .err _ => true
  | _ => false

/-- Environment of a fully successful run whose generated commit message is
exactly the no-op sentinel string. -/
def c9Env : Env :=
  { openOk := true, statusesOk := true, statusesEmpty := false,
    addSpawnOk := true, addExit := 0,
    diffStatSpawnOk := true, diffStatOut := [100],
    diffFullSpawnOk := true, diffFullOut := [100],
    sendOk := true, httpSuccess := true, errBody := [],
    parseOk := true, candidateText := some noChangesMsg,
    commitSpawnOk := true, commitExit := 0,
    pushSpawnOk := true, pushExit := 0 }

/-- Initial scheduler state: default configuration, flag clear, no spawned
loop task. -/
def c7Sys0 : Sys := { config := defaultConfig, timerRunning := false, loops := [] }

/-- The state reached by start, then stop, then start again, before the
first spawned loop observes the cleared flag at a tick. -/
def c7SysAfter : Sys :=
  (start_auto_commit (stop_auto_commit (start_auto_commit c7Sys0).2).2).2

/-- Scheduler state with a configured interval of zero minutes and the
flag clear. -/
def c10Sys : Sys :=
  { config := { repo_path := "r".data, auto_commit_enabled := false,
                interval_minutes := 0, auto_start := false,
                gemini_api_key := [] },
    timerRunning := false, loops := [] }

/-- An Active scheduler state with one spawned loop task, for the C8
witness. -/
def c8Sys : Sys :=
  { config := defaultConfig, timerRunning := true, loops := [⟨5, []⟩] }

/-- A replacement configuration differing from the default in every field,
for the C8 witness. -/
def c8NewConfig : AppConfig := ⟨"q".data, true, 7, true, "k2".data⟩

/-- A message wrapped in one matching pair of straight double quotes whose
inner text is itself wrapped in straight single quotes. -/
def c5Input : List Char :=
  '"' :: singleQuote :: 'h' :: 'i' :: singleQuote :: '"' :: []

theorem c1Body_length : c1Body.length = 10001 := by
  unfold c1Body
  rw [List.length_append, List.length_replicate]
  decide

theorem c1Body_not_boundary : isCharBoundary c1Body 10000 = false := by
  unfold isCharBoundary c1Body
  rw [List.getElem?_append_right (by rw [List.length_replicate]; omega)]
  rw [List.length_replicate]
  decide

theorem c1_truncate_none (stat : List Byte) : truncateDiffText stat c1Body = none := by
  unfold truncateDiffText
  rw [c1Body_length, c1Body_not_boundary]
  norm_num

/-- Claim C1: the spec demands that the text forwarded to the remote
service is the stat section plus the first 10000 characters of the body,
cut at a valid text-unit boundary, never aborting. The code instead
byte-slices at index 10000: on a diff body whose byte 10000 lies inside a
multi-byte character the slice panics, so `run_commit` aborts after the
staging side effect. -/
theorem C1_truncation_panics :
    run_commit c1Env ['k'] = (.panic, [.stage 0]) := by
  have h := c1_truncate_none []
  simp [run_commit, c1Env, h]

/-- Claim C3: for every repository that opens successfully and reports zero
pending changes, `run_commit` returns the no-op sentinel and performs no
side effect at all: no staging, no remote call, no commit, no push. -/
theorem C3_noop (env : Env) (key : List Char)
    (h1 : env.openOk = true) (h2 : env.statusesOk = true)
    (h3 : env.statusesEmpty = true) :
    run_commit env key = (.ok noChangesMsg, []) := by
  simp [run_commit, h1, h2, h3]

theorem C3_noop_witness :
    run_commit c3Env ['k'] = (.ok noChangesMsg, []) :=
  C3_noop c3Env ['k'] rfl rfl rfl

/-- Claim C4: with pending changes and an empty configured credential,
`run_commit` aborts with the ConfigError (`keyMissing`, the literal
message of main.rs line 126) before any mutation: the effect list is
empty, so no staging, no remote call and no commit happened. -/
theorem C4_empty_credential (env : Env)
    (h1 : env.openOk = true) (h2 : env.statusesOk = true)
    (h3 : env.statusesEmpty = false) :
    run_commit env [] = (.err .keyMissing, []) := by
  simp [run_commit, h1, h2, h3]

theorem C4_empty_credential_witness :
    run_commit c4Env [] = (.err .keyMissing, []) :=
  C4_empty_credential c4Env rfl rfl rfl

/-- Claim C2 counterexample: a run in which `git commit` and `git push`
both exit with code 1, yet `run_commit` returns the sanitized message as
success — the source only `map_err`s the io error of spawning and never
inspects the exit status, so the claim "non-zero outcome fails with
GitError" is false on this input. -/
theorem C2_counterexample :
    run_commit c2Env ['k'] =
      (.ok featMsg, [.stage 0, .remoteCall, .commit featMsg 1, .push 1]) ∧
    Effect.commit featMsg 1 ∈ (run_commit c2Env ['k']).2 ∧
    Effect.push 1 ∈ (run_commit c2Env ['k']).2 ∧
    isErrOutcome (run_commit c2Env ['k']).1 = false := by
  refine ⟨by decide, by decide, by decide, by decide⟩

/-- Claim C2 amended: the commit and publish steps of `run_commit` fail
only when the git process cannot be spawned; the exit statuses of the
spawned `git commit` and `git push` processes are never inspected, so the
returned outcome is independent of them. -/
theorem C2_amended (env : Env) (key : List Char) (e1 e2 : Nat) :
    (run_commit { env with commitExit := e1, pushExit := e2 } key).1 =
    (run_commit env key).1 := by
  obtain ⟨o, st, se, a, ae, ds, dso, df, dfo, sOk, hs, eb, p, ct, cs, ce, ps, pe⟩ := env
  dsimp only [run_commit]
  cases o with
  | false => rfl
  | true =>
    cases st with
    | false => rfl
    | true =>
      cases se with
      | true => rfl
      | false =>
        cases key with
        | nil => rfl
        | cons k ks =>
          cases a with
          | false => rfl
          | true =>
            cases ds with
            | false => rfl
            | true =>
              cases df with
              | false => rfl
              | true =>
                cases htr : truncateDiffText dso dfo with
                | none => rfl
                | some dtext =>
                  cases sOk with
                  | false => rfl
                  | true =>
                    cases hs with
                    | false => rfl
                    | true =>
                      cases p with
                      | false => rfl
                      | true =>
                        cases ct with
                        | none => rfl
                        | some raw =>
                          cases cs with
                          | false => rfl
                          | true =>
                            cases ps with
                            | false => rfl
                            | true => rfl

/-- Claim C9: the no-op outcome is the literal string
"No changes to commit", and the scheduler loop distinguishes no-op from
success by comparing the returned message against that string. A run over
a repository with pending changes whose generated message is exactly that
string commits and pushes, yet the loop emits no commit-status
notification. -/
theorem C9_sentinel_collision :
    run_commit c9Env ['k'] =
      (.ok noChangesMsg,
        [.stage 0, .remoteCall, .commit noChangesMsg 0, .push 0]) ∧
    c9Env.statusesEmpty = false ∧
    Effect.commit noChangesMsg 0 ∈ (run_commit c9Env ['k']).2 ∧
    Effect.push 0 ∈ (run_commit c9Env ['k']).2 ∧
    loopNotification (run_commit c9Env ['k']).1 = none := by
  refine ⟨by decide, rfl, by decide, by decide, by decide⟩

/-- Claim C6 counterexample: in `save_config` the durable-storage write
happens while the configuration lock is held, contradicting the claim that
the lock is released before the write begins — the MutexGuard taken at
main.rs line 244 lives until the function returns at line 255. -/
theorem C6_counterexample :
    heldDuring save_config_events CfgEvent.fsWrite = true := by decide

/-- Claim C6 amended: the read operation (`get_config`) holds the
configuration lock only for the clone, with no blocking call under it; but
`save_config` performs the directory creation, the serialization and the
durable-storage write all while still holding the configuration lock,
releasing it only when the function returns. -/
theorem C6_amended :
    heldDuring get_config_events CfgEvent.cloneConfig = true ∧
    CfgEvent.fsWrite ∉ get_config_events ∧
    CfgEvent.createDir ∉ get_config_events ∧
    heldDuring save_config_events CfgEvent.swapConfig = true ∧
    heldDuring save_config_events CfgEvent.createDir = true ∧
    heldDuring save_config_events CfgEvent.serializeCfg = true ∧
    heldDuring save_config_events CfgEvent.fsWrite = true := by decide

/-- Claim C7 counterexample: after start, stop, start (the stop never being
observed by the first loop because no tick happened in between), the
scheduler is Active with two live loop tasks, and a tick of the first
(stale) task still invokes the pipeline and leaves both tasks alive — so
the atomic check-and-set of `start_auto_commit` does not ensure that at
most one periodic loop is ever active. -/
theorem C7_counterexample :
    c7SysAfter.timerRunning = true ∧
    c7SysAfter.loops.length = 2 ∧
    (tickAt c7SysAfter 0).2 = some defaultConfig.repo_path ∧
    (tickAt c7SysAfter 0).1.loops.length = 2 := by decide

/-- Claim C7 amended: calling start while the flag is set returns the
ConcurrencyError and leaves the whole state (flag, spawned loops and their
snapshots) unchanged, and calling stop while Idle is a no-op; the
check-and-set of start is one atomic step on the state. However this does
not bound the number of live loop tasks at one: a stop immediately
followed by a start can leave a stale loop running alongside the new one. -/
theorem C7_start_stop (s : Sys) :
    (s.timerRunning = true → start_auto_commit s = (.error timerErrMsg, s)) ∧
    (s.timerRunning = false → stop_auto_commit s = (.ok (), s)) := by
  constructor
  · intro h
    simp [start_auto_commit, h]
  · intro h
    obtain ⟨c, tr, l⟩ := s
    subst h
    rfl

theorem C7_start_stop_witness :
    start_auto_commit { config := defaultConfig, timerRunning := true, loops := [] } =
      (.error timerErrMsg,
        { config := defaultConfig, timerRunning := true, loops := [] }) ∧
    stop_auto_commit c7Sys0 = (.ok (), c7Sys0) :=
  ⟨(C7_start_stop _).1 rfl, (C7_start_stop _).2 rfl⟩

/-- Claim C8: replacing the configuration (the in-memory half of
`save_config`) leaves every spawned loop task, hence its interval/path
snapshot, unchanged, and the outward behaviour of any tick — whether it
runs the pipeline and with which repository path — is the same before and
after the replace. The snapshot taken at start time thus stays in force
until the next start. -/
theorem C8_snapshot_stable (s : Sys) (c : AppConfig) :
    (save_config_mem c s).loops = s.loops ∧
    (∀ i : Nat, (tickAt (save_config_mem c s) i).2 = (tickAt s i).2) := by
  obtain ⟨cfg, tr, lps⟩ := s
  refine ⟨rfl, ?_⟩
  intro i
  rcases h1 : lps[i]? with _ | t
  · simp [tickAt, save_config_mem, h1]
  · rcases h2 : taskTimerPeriod t with _ | per
    · simp [tickAt, save_config_mem, h1, h2]
    · cases tr <;> simp [tickAt, save_config_mem, h1, h2]

/-- Claim C10: with `interval_minutes = 0` (which the configuration store
accepts unvalidated) `start_auto_commit` succeeds and spawns a loop task
whose snapshot interval is zero; that task's timer construction
(`interval(Duration::from_secs(0))`) panics, so in every subsequent state
a tick of a zero-interval task never invokes the pipeline. -/
theorem C10_zero_interval (s : Sys)
    (h1 : s.timerRunning = false) (h2 : s.config.interval_minutes = 0) :
    (start_auto_commit s).1 = .ok () ∧
    (start_auto_commit s).2.loops = s.loops ++ [⟨0, s.config.repo_path⟩] ∧
    (∀ (s' : Sys) (i : Nat) (p : List Char),
      s'.loops[i]? = some ⟨0, p⟩ → (tickAt s' i).2 = none) := by
  refine ⟨?_, ?_, ?_⟩
  · simp [start_auto_commit, h1]
  · simp [start_auto_commit, h1, h2]
  · intro s' i p h
    unfold tickAt
    rw [h]
    simp [taskTimerPeriod]

theorem C10_zero_interval_witness :
    (start_auto_commit c10Sys).1 = .ok () ∧
    (tickAt (start_auto_commit c10Sys).2 0).2 = none := by
  have h := C10_zero_interval c10Sys rfl rfl
  exact ⟨h.1, h.2.2 (start_auto_commit c10Sys).2 0 ("r".data) (by decide)⟩

theorem dropWhile_append_of_all (p : Char → Bool) (w l : List Char)
    (hw : ∀ a ∈ w, p a = true) : (w ++ l).dropWhile p = l.dropWhile p := by
  have h : w.dropWhile p = [] := List.dropWhile_eq_nil_iff.2 hw
  rw [List.dropWhile_append, h]
  simp

theorem dropWhile_of_head (p : Char → Bool) (l : List Char) (a : Char)
    (h : l.head? = some a) (hp : p a = false) : l.dropWhile p = l := by
  cases l with
  | nil => rfl
  | cons x xs =>
    simp only [List.head?_cons, Option.some.injEq] at h
    rw [List.dropWhile_cons, h, hp]
    simp

theorem dropRightWhile_append_of_all (p : Char → Bool) (l w : List Char)
    (hw : ∀ a ∈ w, p a = true) :
    dropRightWhile p (l ++ w) = dropRightWhile p l := by
  unfold dropRightWhile
  rw [List.reverse_append,
      dropWhile_append_of_all p w.reverse l.reverse (by simpa using hw)]

theorem dropRightWhile_of_getLast (p : Char → Bool) (l : List Char) (a : Char)
    (h : l.getLast? = some a) (hp : p a = false) : dropRightWhile p l = l := by
  unfold dropRightWhile
  rw [dropWhile_of_head p l.reverse a (by rw [List.head?_reverse]; exact h) hp]
  exact List.reverse_reverse l

theorem head?_append_left (m w : List Char) (a : Char) (h : m.head? = some a) :
    (m ++ w).head? = some a := by
  cases m with
  | nil => simp at h
  | cons x xs => simpa using h

theorem getLast?_cons_concat (x : Char) (l : List Char) (a : Char) :
    (x :: (l ++ [a])).getLast? = some a := by
  show ((x :: l) ++ [a]).getLast? = some a
  exact List.getLast?_concat ..

/-- Trimming a core with non-whitespace ends, surrounded by whitespace,
yields exactly the core. -/
theorem trimList_sandwich (w1 m w2 : List Char) (a b : Char)
    (hw1 : ∀ c ∈ w1, isRustWhitespace c = true)
    (hw2 : ∀ c ∈ w2, isRustWhitespace c = true)
    (hh : m.head? = some a) (ha : isRustWhitespace a = false)
    (hl : m.getLast? = some b) (hb : isRustWhitespace b = false) :
    trimList (w1 ++ (m ++ w2)) = m := by
  unfold trimList
  rw [dropWhile_append_of_all _ w1 _ hw1,
      dropWhile_of_head _ (m ++ w2) a (head?_append_left m w2 a hh) ha,
      dropRightWhile_append_of_all _ m w2 hw2]
  exact dropRightWhile_of_getLast _ m b hl hb

/-- Stripping a matching wrapping pair of `q` from a core whose own ends
are not `q` yields exactly the core. -/
theorem trimMatchesChar_wrap (q : Char) (t : List Char) (a b : Char)
    (hh : t.head? = some a) (ha : (a == q) = false)
    (hl : t.getLast? = some b) (hb : (b == q) = false) :
    trimMatchesChar q (q :: (t ++ [q])) = t := by
  unfold trimMatchesChar
  have h1 : (q :: (t ++ [q])) = [q] ++ (t ++ [q]) := rfl
  rw [h1, dropWhile_append_of_all _ [q] _ (by simp),
      dropWhile_of_head _ (t ++ [q]) a (head?_append_left t [q] a hh) ha,
      dropRightWhile_append_of_all _ t [q] (by simp)]
  exact dropRightWhile_of_getLast _ t b hl hb

theorem trimMatchesChar_of_ends (q : Char) (t : List Char) (a b : Char)
    (hh : t.head? = some a) (ha : (a == q) = false)
    (hl : t.getLast? = some b) (hb : (b == q) = false) :
    trimMatchesChar q t = t := by
  unfold trimMatchesChar
  rw [dropWhile_of_head _ t a hh ha]
  exact dropRightWhile_of_getLast _ t b hl hb

theorem trimList_of_ends (t : List Char) (a b : Char)
    (hh : t.head? = some a) (ha : isRustWhitespace a = false)
    (hl : t.getLast? = some b) (hb : isRustWhitespace b = false) :
    trimList t = t := by
  unfold trimList
  rw [dropWhile_of_head _ t a hh ha]
  exact dropRightWhile_of_getLast _ t b hl hb

/-- Claim C5 counterexample: sanitizing a message wrapped in one matching
pair of straight double quotes whose inner text is single-quoted does not
return the inner text: after the double quotes are stripped, trim_matches
strips the single quotes of the inner text as well, so more than the one
wrapping pair is removed. -/
theorem C5_counterexample :
    sanitize c5Input = ['h', 'i'] ∧
    sanitize c5Input ≠ singleQuote :: 'h' :: 'i' :: singleQuote :: [] := by
  refine ⟨by decide, by decide⟩

/-- Claim C5 amended: provided the core text neither starts nor ends with
a straight quote or whitespace, a message wrapped in a single matching
pair of straight double or single quotes (with surrounding whitespace)
sanitizes to exactly the core, and a message with no wrapping quotes is
returned unchanged apart from trimming. Without that proviso the claim
fails: sanitization strips every leading and trailing quote character of
both kinds, double quotes first, then single quotes, as
`C5_counterexample` shows. -/
theorem C5_amended (t w1 w2 : List Char) (q : Char)
    (hq : q = '"' ∨ q = singleQuote)
    (hw1 : ∀ c ∈ w1, isRustWhitespace c = true)
    (hw2 : ∀ c ∈ w2, isRustWhitespace c = true)
    (hcore : cleanCore t = true) :
    sanitize (w1 ++ (q :: (t ++ (q :: w2)))) = t ∧
    sanitize (w1 ++ (t ++ w2)) = t := by
  unfold cleanCore at hcore
  rcases hht : t.head? with _ | a
  · rw [hht] at hcore; simp at hcore
  rcases hlt : t.getLast? with _ | b
  · rw [hht, hlt] at hcore; simp at hcore
  rw [hht, hlt] at hcore
  simp only [Bool.and_eq_true, Bool.not_eq_true'] at hcore
  obtain ⟨⟨⟨⟨⟨haq, has⟩, haw⟩, hbq⟩, hbs⟩, hbw⟩ := hcore
  have hqw : isRustWhitespace q = false := by
    rcases hq with h | h <;> subst h <;> decide
  have hmh : (q :: (t ++ [q])).head? = some q := rfl
  have hml : (q :: (t ++ [q])).getLast? = some q := getLast?_cons_concat q t q
  have hre : w1 ++ (q :: (t ++ (q :: w2))) = w1 ++ ((q :: (t ++ [q])) ++ w2) := by
    simp
  constructor
  · unfold sanitize
    rw [hre, trimList_sandwich w1 (q :: (t ++ [q])) w2 q q hw1 hw2 hmh hqw hml hqw]
    rcases hq with h | h
    · subst h
      rw [trimMatchesChar_wrap _ t a b hht haq hlt hbq,
          trimMatchesChar_of_ends _ t a b hht has hlt hbs]
      exact trimList_of_ends t a b hht haw hlt hbw
    · subst h
      rw [trimMatchesChar_of_ends _ (singleQuote :: (t ++ [singleQuote]))
            singleQuote singleQuote rfl (by decide)
            (getLast?_cons_concat singleQuote t singleQuote) (by decide),
          trimMatchesChar_wrap _ t a b hht has hlt hbs]
      exact trimList_of_ends t a b hht haw hlt hbw
  · unfold sanitize
    rw [trimList_sandwich w1 t w2 a b hw1 hw2 hht haw hlt hbw,
        trimMatchesChar_of_ends _ t a b hht haq hlt hbq,
        trimMatchesChar_of_ends _ t a b hht has hlt hbs]
    exact trimList_of_ends t a b hht haw hlt hbw

theorem C5_amended_witness :
    sanitize ([' '] ++ ('"' :: (['h', 'i'] ++ ('"' :: [])))) = ['h', 'i'] ∧
    sanitize ([' '] ++ (['h', 'i'] ++ [])) = ['h', 'i'] :=
  C5_amended ['h', 'i'] [' '] [] '"' (Or.inl rfl)
    (by decide) (by decide) (by decide)

theorem C2_amended_witness :
    (run_commit { c2Env with commitExit := 7, pushExit := 9 } ['k']).1 =
    (run_commit c2Env ['k']).1 :=
  C2_amended c2Env ['k'] 7 9

theorem C8_snapshot_stable_witness :
    (save_config_mem c8NewConfig c8Sys).loops = c8Sys.loops ∧
    (tickAt (save_config_mem c8NewConfig c8Sys) 0).2 = (tickAt c8Sys 0).2 :=
  ⟨(C8_snapshot_stable c8Sys c8NewConfig).1,
   (C8_snapshot_stable c8Sys c8NewConfig).2 0⟩

end AutoCommit
